import Mathlib

/-!
Shallow embedding of `src/app.py` (the data-measurements-tool Streamlit app).

The file under verification is orchestration glue: it bootstraps a cache
directory, sets up logging, and drives sequential calls into an external
statistics-computation class (`dataset_statistics`) and an external
widget-rendering module (`streamlit_utils`).  We embed it as a trace
semantics: every externally visible action (log record, `mkdir`, call into
the statistics class, widget rendered, screen-column placement) becomes an
`Event`, and each Python function becomes a Lean function returning the
list of events it emits together with its results.  The filesystem is a
list of existing directory names; `mkdir` fails on an existing directory,
exactly as `os.mkdir` does.  The external
`DatasetStatisticsCacheClass` is opaque in the source, so it is modelled
as a record of what the app handed it: its cache path, its dataset
arguments, and the ordered list of load-or-prepare steps the app ran on it.
-/

namespace DataMeasurements

/-- Dataset arguments, the dict built by the sidebar GUI (`ds_args`). The app
only passes it around and unpacks it once, so an association list suffices. -/
abbrev DsArgs := List (String × String)

/-- Filesystem state: the list of directories that exist. -/
abbrev FS := List String

/-- Embedding of `os.path.isdir`. -/
def isdir (d : String) (fs : FS) : Bool :=
  fs.contains d

/-- Embedding of `os.mkdir`: raises `FileExistsError` when the directory is
already there, else creates it. -/
def mkdir (d : String) (fs : FS) : Except String FS :=
  if fs.contains d then Except.error "FileExistsError" else Except.ok (d :: fs)

/-- Embedding of `Path(d).mkdir(exist_ok=True)`: never fails. -/
def mkdirExistOk (d : String) (fs : FS) : FS :=
  if fs.contains d then fs else d :: fs

/-- Stand-in for the externally defined constant `dataset_utils.CACHE_DIR`
(its concrete value lives in a module outside this file and is irrelevant
to the app's control flow). -/
def CACHE_DIR : String := "cache_dir"

/-- Module constant `_MIN_VOCAB_COUNT = 10` of app.py. -/
def MIN_VOCAB_COUNT : Nat := 10

/-- Module constant `_SHOW_TOP_N_WORDS = 10` of app.py. -/
def SHOW_TOP_N_WORDS : Nat := 10

/-! ## Logging (lines 25-46 of app.py) -/

/-- Python logging levels used by the module. -/
def INFO : Nat := 20

/-- Python logging level WARNING. -/
def WARNING : Nat := 30

/-- Kind of a logging handler: a `FileHandler` with its path, or a
`StreamHandler`. -/
inductive HandlerKind
  | fileHandler (path : String)
  | streamHandler
deriving DecidableEq

/-- A logging handler: its kind, level and formatter string. -/
structure Handler where
  kind : HandlerKind
  level : Nat
  fmt : String
deriving DecidableEq

/-- A Python `logging.Logger`: its own level, propagation flag and handler
list. -/
structure Logger where
  level : Nat
  propagate : Bool
  handlers : List Handler
deriving DecidableEq

/-- The file handler app.py builds: INFO level, writing to
`./log_files/app.log`. -/
def appFileHandler : Handler :=
  { kind := HandlerKind.fileHandler "./log_files/app.log"
    level := INFO
    fmt := "%(asctime)s:%(message)s" }

/-- The stream handler app.py builds: WARNING level. -/
def appStreamHandler : Handler :=
  { kind := HandlerKind.streamHandler
    level := WARNING
    fmt := "[data_measurements_tool] %(message)s" }

/-- Embedding of the module-level logging setup of app.py, lines 25-46:
set the logger level to WARNING, disable propagation, and only when the
logger has no handlers yet, create `./log_files` (exist_ok) and append the
file and stream handlers. -/
def moduleLoggingSetup (lg : Logger) (fs : FS) : Logger × FS :=
  let lg1 : Logger := { lg with level := WARNING, propagate := false }
  if lg1.handlers.isEmpty then
    let fs1 := mkdirExistOk "./log_files" fs
    ({ lg1 with handlers := lg1.handlers ++ [appFileHandler, appStreamHandler] }, fs1)
  else
    (lg1, fs)

/-! ## Events: the externally visible actions of the app -/

/-- The load-or-prepare steps of the external `DatasetStatisticsCacheClass`
that `load_or_prepare` invokes. -/
inductive PrepStep
  | dataset
  | labels
  | textLengths
  | vocab
  | generalStats
  | embeddings
  | npmiTerms
  | zipf
deriving DecidableEq

/-- Screen position a dataset column is rendered into: the left or right
column of the comparison layout, or the single main area. -/
inductive ColPos
  | left
  | right
  | single
deriving DecidableEq

/-- The widgets `show_column` renders via `streamlit_utils` (and
`st.markdown`), in the source's vocabulary. -/
inductive Widget
  | titleMarkdown (dsArgs : DsArgs)
  | expanderHeader
  | expanderGeneralStats (topN : Nat)
  | expanderLabelDistribution
  | expanderTextLengths
  | expanderTextDuplicates
  | npmiWidget (minVocabCount : Nat) (useCache : Bool)
  | expanderZipf
  | expanderTextEmbeddings
deriving DecidableEq

/-- Externally visible actions of app.py, in the order the script performs
them. -/
inductive Event
  | logWarning (msg : String)
  | logInfo (msg : String)
  | mkdirCall (dir : String)
  | constructDstats (cacheDir : String) (dsArgs : DsArgs)
  | prepCall (step : PrepStep) (useCache : Bool)
  | printFigTree
  | loadOrPrepareCall (useCache : Bool)
  | showColumnCall (columnId : String) (useCache : Bool)
  | widget (w : Widget) (columnId : String)
  | npmiStatsConstruct (useCache : Bool)
  | getAvailableTerms (useCache : Bool)
  | stTitle (t : String)
  | sidebarHeader
  | sidebarCheckbox (label : String)
  | sidebarSelection (suffix : String)
  | setColumns (widths : List Nat)
  | renderColumn (pos : ColPos) (columnId : String) (dsArgs : DsArgs)
deriving DecidableEq

/-- Opaque model of the external `DatasetStatisticsCacheClass`: the cache
path and dataset arguments its constructor received, and the ordered list
of load-or-prepare steps run on it (each with the `use_cache` flag it was
passed). -/
structure DatasetStatisticsCacheClass where
  cache_path : String
  ds_args : DsArgs
  prepared : List (PrepStep × Bool)
deriving DecidableEq

/-- Constructor call `DatasetStatisticsCacheClass(CACHE_DIR, **ds_args)`:
records its arguments; no step has been run yet. -/
def DatasetStatisticsCacheClass.construct (cacheDir : String) (dsArgs : DsArgs) :
    DatasetStatisticsCacheClass :=
  { cache_path := cacheDir, ds_args := dsArgs, prepared := [] }

/-- One `dstats.load_or_prepare_<step>(use_cache=...)` call: appends the step
to the record of steps run on the object. -/
def runPrep (d : DatasetStatisticsCacheClass) (s : PrepStep) (uc : Bool) :
    DatasetStatisticsCacheClass :=
  { d with prepared := d.prepared ++ [(s, uc)] }

/-! ## load_or_prepare (lines 85-125 of app.py) -/

/-- Everything `load_or_prepare` produces: the filesystem afterwards, the
events it emitted, the `dstats` object it returns, and the `ds_args` dict as
it stands after the call (Python passes the dict by reference, so a caller
would observe any mutation). -/
structure LoadResult where
  fs : FS
  events : List Event
  dstats : DatasetStatisticsCacheClass
  ds_args_after : DsArgs
deriving DecidableEq

/-- Lines 96-100 of app.py: if `CACHE_DIR` is not a directory, warn and
`mkdir` it. -/
def bootstrapCacheDir (fs : FS) : Except String (FS × List Event) :=
  if isdir CACHE_DIR fs then
    Except.ok (fs, [])
  else
    match mkdir CACHE_DIR fs with
    | Except.error e => Except.error e
    | Except.ok fs1 =>
        Except.ok (fs1, [Event.logWarning "Creating cache", Event.mkdirCall CACHE_DIR])

/-- Embedding of `load_or_prepare(ds_args, show_embeddings, use_cache=False)`
(lines 85-125 of app.py): bootstrap the cache directory, construct the
statistics object from `CACHE_DIR` and `ds_args`, run the preparation steps
on it in the source's order (embeddings only when `show_embeddings`), and
return the object. -/
def load_or_prepare (fs : FS) (ds_args : DsArgs) (show_embeddings : Bool)
    (use_cache : Bool := false) : Except String LoadResult :=
  match bootstrapCacheDir fs with
  | Except.error e => Except.error e
  | Except.ok (fs1, evBoot) =>
      let evCache : List Event :=
        if use_cache then [Event.logWarning "Using cache"] else []
      let d0 := DatasetStatisticsCacheClass.construct CACHE_DIR ds_args
      let d1 := runPrep d0 PrepStep.dataset use_cache
      let d2 := runPrep d1 PrepStep.labels use_cache
      let d3 := runPrep d2 PrepStep.textLengths use_cache
      let d4 := runPrep d3 PrepStep.vocab use_cache
      let d5 := runPrep d4 PrepStep.generalStats use_cache
      let d6 := if show_embeddings then runPrep d5 PrepStep.embeddings use_cache else d5
      let d7 := runPrep d6 PrepStep.npmiTerms use_cache
      let d8 := runPrep d7 PrepStep.zipf use_cache
      let events : List Event :=
        evBoot ++ evCache
          ++ [Event.constructDstats CACHE_DIR ds_args,
              Event.logWarning "Loading Dataset",
              Event.prepCall PrepStep.dataset use_cache,
              Event.logWarning "Extracting Labels",
              Event.prepCall PrepStep.labels use_cache,
              Event.logWarning "Computing Text Lengths",
              Event.prepCall PrepStep.textLengths use_cache,
              Event.logWarning "Extracting Vocabulary",
              Event.prepCall PrepStep.vocab use_cache,
              Event.logWarning "Calculating General Statistics...",
              Event.prepCall PrepStep.generalStats use_cache,
              Event.logWarning "Completed Calculation.",
              Event.logWarning "Calculating Fine-Grained Statistics..."]
          ++ (if show_embeddings then
                [Event.logWarning "Loading Embeddings",
                 Event.prepCall PrepStep.embeddings use_cache,
                 Event.printFigTree]
              else [])
          ++ [Event.logWarning "Loading Terms for nPMI",
              Event.prepCall PrepStep.npmiTerms use_cache,
              Event.logWarning "Loading Zipf",
              Event.prepCall PrepStep.zipf use_cache]
      Except.ok { fs := fs1, events := events, dstats := d8, ds_args_after := ds_args }

/-! ## show_column (lines 128-180 of app.py) -/

/-- Embedding of `show_column(dstats, ds_name_to_dict, show_embeddings,
column_id, use_cache=True)` (lines 128-180 of app.py): the events it emits,
widgets in the source's order, the text-embeddings expander last and only
when `show_embeddings`. -/
def show_column (dstats : DatasetStatisticsCacheClass) (show_embeddings : Bool)
    (column_id : String) (use_cache : Bool := true) : List Event :=
  [Event.showColumnCall column_id use_cache,
   Event.widget (Widget.titleMarkdown dstats.ds_args) column_id,
   Event.logInfo "showing header",
   Event.widget Widget.expanderHeader column_id,
   Event.logInfo "showing general stats",
   Event.widget (Widget.expanderGeneralStats SHOW_TOP_N_WORDS) column_id,
   Event.widget Widget.expanderLabelDistribution column_id,
   Event.widget Widget.expanderTextLengths column_id,
   Event.widget Widget.expanderTextDuplicates column_id,
   Event.logInfo "showing npmi widget",
   Event.npmiStatsConstruct use_cache,
   Event.getAvailableTerms use_cache,
   Event.widget (Widget.npmiWidget MIN_VOCAB_COUNT use_cache) column_id,
   Event.logInfo "showing zipf",
   Event.widget Widget.expanderZipf column_id]
  ++ (if show_embeddings then
        [Event.widget Widget.expanderTextEmbeddings column_id]
      else [])

/-! ## main (lines 183-217 of app.py) -/

/-- What `main` produces: the filesystem afterwards and the emitted events. -/
structure MainResult where
  fs : FS
  events : List Event
deriving DecidableEq

/-- Embedding of `main()` (lines 183-217 of app.py).  The checkbox values and
the sidebar selections are inputs (the user's choices); `sidebar_selection`
maps the dataset-name suffix the source passes (`" A"`, `" B"`, `""`) to the
dataset arguments the user picked there.  `use_cache` is hard-coded to
`True` (line 193). -/
def main (compare_mode : Bool) (show_embeddings : Bool)
    (sidebar_selection : String → DsArgs) (fs : FS) : Except String MainResult :=
  let ev0 : List Event :=
    [Event.stTitle "Data Measurements Tool",
     Event.sidebarHeader,
     Event.sidebarCheckbox "Comparison mode",
     Event.sidebarCheckbox "Show embeddings"]
  let use_cache := true
  if compare_mode then
    let dataset_args_left := sidebar_selection " A"
    let dataset_args_right := sidebar_selection " B"
    let evSetup : List Event :=
      [Event.logWarning "Using Comparison Mode",
       Event.sidebarSelection " A",
       Event.sidebarSelection " B",
       Event.setColumns [10, 1, 10]]
    match load_or_prepare fs dataset_args_left show_embeddings use_cache with
    | Except.error e => Except.error e
    | Except.ok rL =>
        match load_or_prepare rL.fs dataset_args_right show_embeddings use_cache with
        | Except.error e => Except.error e
        | Except.ok rR =>
            Except.ok
              { fs := rR.fs
                events :=
                  ev0 ++ evSetup
                    ++ [Event.loadOrPrepareCall use_cache] ++ rL.events
                    ++ [Event.renderColumn ColPos.left " A" rL.dstats.ds_args]
                    ++ show_column rL.dstats show_embeddings " A"
                    ++ [Event.loadOrPrepareCall use_cache] ++ rR.events
                    ++ [Event.renderColumn ColPos.right " B" rR.dstats.ds_args]
                    ++ show_column rR.dstats show_embeddings " B" }
  else
    let dataset_args := sidebar_selection ""
    match load_or_prepare fs dataset_args show_embeddings use_cache with
    | Except.error e => Except.error e
    | Except.ok r =>
        Except.ok
          { fs := r.fs
            events :=
              ev0
                ++ [Event.logWarning "Using Single Dataset Mode",
                    Event.sidebarSelection ""]
                ++ [Event.loadOrPrepareCall use_cache] ++ r.events
                ++ [Event.renderColumn ColPos.single "" r.dstats.ds_args]
                ++ show_column r.dstats show_embeddings "" }

/-! ## Trace views -/

/-- The `load_or_prepare_<step>` calls recorded in a trace, in order, each
with the `use_cache` flag it received. -/
def prepCallsOf (tr : List Event) : List (PrepStep × Bool) :=
  tr.filterMap fun e =>
    match e with
    | Event.prepCall s u => some (s, u)
    | _ => none

/-- The widgets rendered in a trace, in order. -/
def widgetsOf (tr : List Event) : List Widget :=
  tr.filterMap fun e =>
    match e with
    | Event.widget w _ => some w
    | _ => none

/-- The screen-column placements in a trace: where each dataset's statistics
were displayed, which column id was used, and which dataset arguments the
displayed statistics came from. -/
def renderedColumnsOf (tr : List Event) : List (ColPos × String × DsArgs) :=
  tr.filterMap fun e =>
    match e with
    | Event.renderColumn p c a => some (p, c, a)
    | _ => none

/-- The `use_cache` arguments of the `load_or_prepare` calls in a trace. -/
def loadCallsOf (tr : List Event) : List Bool :=
  tr.filterMap fun e =>
    match e with
    | Event.loadOrPrepareCall u => some u
    | _ => none

/-- The `show_column` calls in a trace: column id and `use_cache` argument. -/
def showColumnCallsOf (tr : List Event) : List (String × Bool) :=
  tr.filterMap fun e =>
    match e with
    | Event.showColumnCall c u => some (c, u)
    | _ => none

/-- The `DatasetStatisticsCacheClass` constructor calls in a trace, with the
arguments each received. -/
def constructsOf (tr : List Event) : List (String × DsArgs) :=
  tr.filterMap fun e =>
    match e with
    | Event.constructDstats c a => some (c, a)
    | _ => none

/-! ## Theorems -/

/-- Helper: `load_or_prepare` never raises — its only fallible step, `mkdir`,
is guarded by the `isdir` check — and afterwards the cache directory exists. -/
theorem load_or_prepare_ok (fs : FS) (ds : DsArgs) (se uc : Bool) :
    ∃ r : LoadResult, load_or_prepare fs ds se uc = Except.ok r ∧
      isdir CACHE_DIR r.fs = true := by
  by_cases hc : CACHE_DIR ∈ fs <;>
    simp [load_or_prepare, bootstrapCacheDir, isdir, mkdir, hc]

/-- C1: for every dataset-arguments dictionary, every `show_embeddings` and
every `use_cache`, `load_or_prepare` returns (never `None`, never an
exception) the very `DatasetStatisticsCacheClass` object it constructed from
`CACHE_DIR` and `ds_args`, with exactly the preparation steps of its trace
run on that object. -/
theorem load_or_prepare_returns_prepared_dstats (fs : FS) (ds : DsArgs) (se uc : Bool) :
    ∃ r : LoadResult, load_or_prepare fs ds se uc = Except.ok r ∧
      r.dstats.cache_path = CACHE_DIR ∧
      r.dstats.ds_args = ds ∧
      r.dstats.prepared = prepCallsOf r.events := by
  by_cases hc : CACHE_DIR ∈ fs <;> cases se <;> cases uc <;>
    simp [load_or_prepare, bootstrapCacheDir, isdir, mkdir, hc, runPrep,
      DatasetStatisticsCacheClass.construct, prepCallsOf]

/-- C2: `load_or_prepare` invokes the statistics-computation steps in the
fixed order dataset, labels, text lengths, vocab, general stats, (embeddings
only when `show_embeddings`), nPMI terms, Zipf — each exactly once and each
with the caller's `use_cache` flag. -/
theorem load_or_prepare_prep_call_order (fs : FS) (ds : DsArgs) (se uc : Bool) :
    ∃ r : LoadResult, load_or_prepare fs ds se uc = Except.ok r ∧
      prepCallsOf r.events =
        [(PrepStep.dataset, uc), (PrepStep.labels, uc), (PrepStep.textLengths, uc),
         (PrepStep.vocab, uc), (PrepStep.generalStats, uc)]
        ++ (if se then [(PrepStep.embeddings, uc)] else [])
        ++ [(PrepStep.npmiTerms, uc), (PrepStep.zipf, uc)] := by
  by_cases hc : CACHE_DIR ∈ fs <;> cases se <;> cases uc <;>
    simp [load_or_prepare, bootstrapCacheDir, isdir, mkdir, hc, prepCallsOf]

/-- C10: `show_column` renders the widgets in the fixed order title markdown,
header expander, general-stats expander (top 10 words), label distribution,
text lengths, text duplicates, nPMI widget (minimum vocabulary count 10),
Zipf expander; the text-embeddings expander comes last and is rendered iff
`show_embeddings` is true; nPMI and Zipf are rendered on every call. -/
theorem show_column_widget_order (d : DatasetStatisticsCacheClass) (se : Bool)
    (cid : String) (uc : Bool) :
    widgetsOf (show_column d se cid uc) =
      [Widget.titleMarkdown d.ds_args, Widget.expanderHeader, Widget.expanderGeneralStats 10,
       Widget.expanderLabelDistribution, Widget.expanderTextLengths,
       Widget.expanderTextDuplicates, Widget.npmiWidget 10 uc, Widget.expanderZipf]
      ++ (if se then [Widget.expanderTextEmbeddings] else []) ∧
    Widget.npmiWidget 10 uc ∈ widgetsOf (show_column d se cid uc) ∧
    Widget.expanderZipf ∈ widgetsOf (show_column d se cid uc) ∧
    (Widget.expanderTextEmbeddings ∈ widgetsOf (show_column d se cid uc) ↔ se = true) := by
  cases se <;>
    simp [show_column, widgetsOf, MIN_VOCAB_COUNT, SHOW_TOP_N_WORDS]

/-- Projection for concrete statements about one call: the preparation steps
`load_or_prepare` ran, in order (empty for an error). -/
def lopPrepSteps (fs : FS) (ds : DsArgs) (se uc : Bool) : List PrepStep :=
  match load_or_prepare fs ds se uc with
  | Except.ok r => (prepCallsOf r.events).map Prod.fst
  | Except.error _ => []

/-- C3 counterexample: a call with `show_embeddings = false` (cache directory
already present, empty dataset arguments, `use_cache = true`) returns
successfully yet never triggers the embeddings computation, so it is not the
case that every call triggers all of the listed statistics. -/
theorem load_or_prepare_no_embeddings_cex :
    (load_or_prepare [CACHE_DIR] [] false true).toOption.isSome = true ∧
    (lopPrepSteps [CACHE_DIR] [] false true).contains PrepStep.embeddings = false := by
  decide

set_option maxHeartbeats 1000000 in
/-- C3 (amended): every call to `load_or_prepare` triggers the label,
text-length, vocabulary, nPMI-terms and Zipf computations; the embeddings
computation is triggered exactly when `show_embeddings` is true. -/
theorem load_or_prepare_triggers_listed_stats (fs : FS) (ds : DsArgs) (se uc : Bool) :
    ∃ r : LoadResult, load_or_prepare fs ds se uc = Except.ok r ∧
      (PrepStep.labels, uc) ∈ prepCallsOf r.events ∧
      (PrepStep.textLengths, uc) ∈ prepCallsOf r.events ∧
      (PrepStep.vocab, uc) ∈ prepCallsOf r.events ∧
      (PrepStep.npmiTerms, uc) ∈ prepCallsOf r.events ∧
      (PrepStep.zipf, uc) ∈ prepCallsOf r.events ∧
      ((PrepStep.embeddings, uc) ∈ prepCallsOf r.events ↔ se = true) := by
  by_cases hc : CACHE_DIR ∈ fs <;> cases se <;> cases uc <;>
    simp [load_or_prepare, bootstrapCacheDir, isdir, mkdir, hc, prepCallsOf]

/-- C4: `load_or_prepare` never hits the `mkdir` failure branch; afterwards
the cache directory exists; when `CACHE_DIR` already existed, `mkdir` is not
called; when it did not, the warning and the `mkdir` are the first two
actions of the call, before the statistics object is constructed. -/
theorem load_or_prepare_cache_bootstrap (fs : FS) (ds : DsArgs) (se uc : Bool) :
    ∃ r : LoadResult, load_or_prepare fs ds se uc = Except.ok r ∧
      isdir CACHE_DIR r.fs = true ∧
      (isdir CACHE_DIR fs = true → Event.mkdirCall CACHE_DIR ∉ r.events) ∧
      (isdir CACHE_DIR fs = false →
        r.events.take 2 = [Event.logWarning "Creating cache", Event.mkdirCall CACHE_DIR]) := by
  by_cases hc : CACHE_DIR ∈ fs <;> cases se <;> cases uc <;>
    simp [load_or_prepare, bootstrapCacheDir, isdir, mkdir, hc]

/-- C5: with the comparison checkbox selected, `main` displays exactly two
datasets — the first sidebar selection in the left screen column under
id " A" and the second in the right screen column under id " B" — and with
the checkbox not selected it displays exactly one dataset, the single
selection, in a single column. -/
theorem main_column_layout (se : Bool) (sel : String → DsArgs) (fs : FS) :
    (∃ r : MainResult, main true se sel fs = Except.ok r ∧
       renderedColumnsOf r.events =
         [(ColPos.left, " A", sel " A"), (ColPos.right, " B", sel " B")]) ∧
    (∃ r : MainResult, main false se sel fs = Except.ok r ∧
       renderedColumnsOf r.events = [(ColPos.single, "", sel "")]) := by
  constructor <;>
    · by_cases hc : CACHE_DIR ∈ fs <;> cases se <;>
        simp [main, load_or_prepare, bootstrapCacheDir, isdir, mkdir, hc,
          show_column, renderedColumnsOf, runPrep, DatasetStatisticsCacheClass.construct]

/-- C6: the module-level logging setup is idempotent on the handler list —
running it a second time changes nothing — because handlers are only added
when the logger has none; it always sets the logger level to WARNING and
disables propagation; the handlers it installs are a file handler at INFO
writing to `./log_files/app.log` and a stream handler at WARNING. -/
theorem module_logging_setup_idempotent (lg : Logger) (fs fs2 : FS) :
    (moduleLoggingSetup (moduleLoggingSetup lg fs).1 fs2).1.handlers
        = (moduleLoggingSetup lg fs).1.handlers ∧
    (moduleLoggingSetup lg fs).1.level = WARNING ∧
    (moduleLoggingSetup lg fs).1.propagate = false ∧
    (lg.handlers = [] →
      (moduleLoggingSetup lg fs).1.handlers = [appFileHandler, appStreamHandler]) ∧
    (lg.handlers ≠ [] → (moduleLoggingSetup lg fs).1.handlers = lg.handlers) ∧
    appFileHandler.level = INFO ∧
    appFileHandler.kind = HandlerKind.fileHandler "./log_files/app.log" ∧
    appStreamHandler.level = WARNING := by
  cases h : lg.handlers <;>
    simp [moduleLoggingSetup, appFileHandler, appStreamHandler, h]

/-- C7: in comparison mode execution is strictly sequential — `main`'s trace
is exactly the sidebar preamble, then the whole `load_or_prepare` trace for
dataset A, then the whole display of column A, then the whole
`load_or_prepare` trace for dataset B (which starts from the filesystem
state A left behind), then the display of column B. -/
theorem main_comparison_sequential (se : Bool) (sel : String → DsArgs) (fs : FS) :
    ∃ rL rR : LoadResult,
      load_or_prepare fs (sel " A") se true = Except.ok rL ∧
      load_or_prepare rL.fs (sel " B") se true = Except.ok rR ∧
      main true se sel fs = Except.ok
        { fs := rR.fs
          events :=
            [Event.stTitle "Data Measurements Tool", Event.sidebarHeader,
             Event.sidebarCheckbox "Comparison mode", Event.sidebarCheckbox "Show embeddings",
             Event.logWarning "Using Comparison Mode", Event.sidebarSelection " A",
             Event.sidebarSelection " B", Event.setColumns [10, 1, 10],
             Event.loadOrPrepareCall true]
            ++ rL.events
            ++ [Event.renderColumn ColPos.left " A" rL.dstats.ds_args]
            ++ show_column rL.dstats se " A"
            ++ [Event.loadOrPrepareCall true]
            ++ rR.events
            ++ [Event.renderColumn ColPos.right " B" rR.dstats.ds_args]
            ++ show_column rR.dstats se " B" } := by
  obtain ⟨rL, hL, _⟩ := load_or_prepare_ok fs (sel " A") se true
  obtain ⟨rR, hR, _⟩ := load_or_prepare_ok rL.fs (sel " B") se true
  exact ⟨rL, rR, hL, hR, by simp [main, hL, hR]⟩

/-- C8: `load_or_prepare`'s `use_cache` parameter defaults to false, yet in
both modes every `load_or_prepare` call `main` makes passes `use_cache =
true` (main hard-codes it, whatever the checkboxes say), and every
`show_column` call from `main` uses its default `use_cache = true`. -/
theorem main_always_uses_cache (cm se : Bool) (sel : String → DsArgs) (fs : FS) :
    (∀ fs2 ds2 se2, load_or_prepare fs2 ds2 se2 = load_or_prepare fs2 ds2 se2 false) ∧
    (∃ r : MainResult, main cm se sel fs = Except.ok r ∧
      loadCallsOf r.events = (if cm then [true, true] else [true]) ∧
      (showColumnCallsOf r.events).map Prod.snd = (if cm then [true, true] else [true])) := by
  refine ⟨fun _ _ _ => rfl, ?_⟩
  cases cm <;> by_cases hc : CACHE_DIR ∈ fs <;> cases se <;>
    simp [main, load_or_prepare, bootstrapCacheDir, isdir, mkdir, hc,
      show_column, loadCallsOf, showColumnCallsOf, runPrep,
      DatasetStatisticsCacheClass.construct]

/-- C9: `load_or_prepare` does not modify its `ds_args` dictionary — it is
the same after the call as before — and reads it exactly once, as the
unpacked arguments of the single `DatasetStatisticsCacheClass` construction. -/
theorem load_or_prepare_preserves_ds_args (fs : FS) (ds : DsArgs) (se uc : Bool) :
    ∃ r : LoadResult, load_or_prepare fs ds se uc = Except.ok r ∧
      r.ds_args_after = ds ∧
      constructsOf r.events = [(CACHE_DIR, ds)] := by
  by_cases hc : CACHE_DIR ∈ fs <;> cases se <;> cases uc <;>
    simp [load_or_prepare, bootstrapCacheDir, isdir, mkdir, hc, constructsOf]

end DataMeasurements
